import Mathlib

/-!
# Verification of the concurrent CSV user-import pipeline

Shallow embedding of the import service (`ImportService` in package
`services`): `parseCSVRecords`, `validateHeader`, `processUserRecord`,
`worker`/collector aggregation and `ImportUsersFromCSV`.

Modelling conventions:
* The CSV reader layer (`encoding/csv`) is abstracted as the sequence of
  results that successive `csvReader.Read()` calls produce before EOF:
  a `List (Except String (List String))`, each element either a row of
  fields or a read error for that row.
* Go strings are Lean `String`s; `strings.TrimSpace` is `goTrimSpace`
  and `strings.ToLower` is modelled on its ASCII fragment (`goToLower`),
  which is exact for all column names and role values the code compares
  against.
* The entity creator `userService.CreateUser` is an opaque function
  `CreateUserInput → Except String String`; a success value models
  `user.ID.String()`, the created identifier.
* Concurrency: a completed (non-cancelled) run of the worker pool
  processes every parsed record through `processUserRecord` exactly once
  and the collector receives all outcomes in some completion order; this
  is modelled by quantifying over permutations (`WorkerRunResults`).
  A cancelled/truncated run delivers an arbitrary list of collected
  outcomes to the final summary (`importReturn`'s `collected` argument).
* Wall-clock fields (`ProcessingTime`) and log output are not modelled.
-/

namespace SetaImport

instance {α β : Type} [DecidableEq α] [DecidableEq β] : DecidableEq (Except α β) :=
  fun a b =>
    match a, b with
    | Except.ok x, Except.ok y =>
        if h : x = y then Decidable.isTrue (by rw [h])
        else Decidable.isFalse (fun he => h (by cases he; rfl))
    | Except.error x, Except.error y =>
        if h : x = y then Decidable.isTrue (by rw [h])
        else Decidable.isFalse (fun he => h (by cases he; rfl))
    | Except.ok _, Except.error _ => Decidable.isFalse (fun he => by cases he)
    | Except.error _, Except.ok _ => Decidable.isFalse (fun he => by cases he)

/-- ASCII/Latin-1 fragment of Go `unicode.IsSpace` (the white space
characters that matter for the inputs compared here). -/
def goIsSpace (c : Char) : Bool :=
  c = ' ' || c = '\t' || c = '\n' || c = '\x0b' || c = '\x0c' || c = '\r'

/-- Go `strings.TrimSpace`: drop leading and trailing white space. -/
def goTrimSpace (s : String) : String :=
  String.mk (((s.data.dropWhile goIsSpace).reverse.dropWhile goIsSpace).reverse)

/-- ASCII fragment of Go `strings.ToLower`, applied character-wise. -/
def goToLower (s : String) : String :=
  String.mk (s.data.map Char.toLower)

/-- `models.UserRole`: the two recognized roles. -/
inductive UserRole where
  | manager
  | member
deriving DecidableEq, Repr

/-- `services.CreateUserInput` as constructed by `processUserRecord`
(fields `Username`, `Email`, `Password`, `Role`). -/
structure CreateUserInput where
  username : String
  email : String
  password : String
  role : UserRole
deriving DecidableEq, Repr

/-- The entity creator `userService.CreateUser`: returns the created
identifier (`user.ID.String()`) or an error string. -/
def Creator : Type := CreateUserInput → Except String String

/-- `services.UserImportRecord`: one parsed CSV row plus its 1-based
source line number. -/
structure UserImportRecord where
  username : String
  email : String
  password : String
  role : String
  lineNum : Nat
deriving DecidableEq, Repr

/-- `services.ImportResult`: outcome of importing one record. Go zero
values (`""`) stand for the omitted `error` / `user_id` fields. -/
structure ImportResult where
  record : UserImportRecord
  success : Bool
  error : String
  userID : String
deriving DecidableEq, Repr

/-- `services.ImportSummary` (without the wall-clock `ProcessingTime`
string and the never-populated `Errors` field). -/
structure ImportSummary where
  totalRecords : Nat
  successCount : Nat
  failureCount : Nat
  results : List ImportResult
deriving DecidableEq, Repr

/-- `services.ImportConfig`. `timeout` is kept abstract in milliseconds;
it only influences which truncations a cancelled run can produce. -/
structure ImportConfig where
  workerCount : Nat
  batchSize : Nat
  timeoutMs : Nat
  maxRecords : Nat
  skipDuplicates : Bool
deriving DecidableEq, Repr

/-- One `csvReader.Read()` result: a row of fields, or a row read error. -/
def RowRead : Type := Except String (List String)

/-- The role `switch` in `processUserRecord`: maps the (lowercased) role
string to a `models.UserRole`, `none` on the `default` branch. -/
def roleOfString (s : String) : Option UserRole :=
  if goToLower s = "manager" then some UserRole.manager
  else if goToLower s = "member" then some UserRole.member
  else none

/-- The `CreateUserInput` literal built at lines 310–315 of the source. -/
def createInputOf (record : UserImportRecord) (role : UserRole) : CreateUserInput :=
  { username := record.username
    email := record.email
    password := record.password
    role := role }

/-- `ImportService.processUserRecord`: validate the role, then call the
creator; its error text is surfaced verbatim, its identifier on success. -/
def processUserRecord (create : Creator) (record : UserImportRecord) : ImportResult :=
  match roleOfString record.role with
  | none =>
      { record := record
        success := false
        error := "invalid role '" ++ record.role ++ "'. Must be 'manager' or 'member'"
        userID := "" }
  | some role =>
      match create (createInputOf record role) with
      | Except.error e =>
          { record := record, success := false, error := e, userID := "" }
      | Except.ok uid =>
          { record := record, success := true, error := "", userID := uid }

/-- The loop body of `validateHeader`: each expected column must equal
the trimmed, lowercased header column at the same index. -/
def headerMatches : List String → List String → Bool
  | _, [] => true
  | [], _ :: _ => false
  | h :: hs, e :: es => (goToLower (goTrimSpace h) == e) && headerMatches hs es

/-- `ImportService.validateHeader`: header must be at least as long as
the expected list and match it column-wise (prefix, case-insensitive). -/
def validateHeader (header expected : List String) : Bool :=
  if header.length < expected.length then false
  else headerMatches header expected

/-- The expected CSV header columns (source line 183). -/
def expectedHeaders : List String :=
  ["username", "email", "password", "role"]

/-- The row loop of `parseCSVRecords`. `count` is `len(records)` so far,
`lineNum` the 1-based source line of the next row. Row read errors,
short rows and rows with an empty required field are skipped; the line
counter still advances. The cap check (`maxRecords > 0 && count ≥
maxRecords`) runs before each read. -/
def parseLoop (maxRecords : Nat) : Nat → Nat → List RowRead → List UserImportRecord
  | _, _, [] => []
  | count, lineNum, r :: rest =>
    if 0 < maxRecords ∧ maxRecords ≤ count then []
    else
      match r with
      | Except.error _ => parseLoop maxRecords count (lineNum + 1) rest
      | Except.ok row =>
        if row.length < 4 then parseLoop maxRecords count (lineNum + 1) rest
        else
          let record : UserImportRecord :=
            { username := goTrimSpace (row.getD 0 "")
              email := goTrimSpace (row.getD 1 "")
              password := goTrimSpace (row.getD 2 "")
              role := goTrimSpace (row.getD 3 "")
              lineNum := lineNum }
          if record.username = "" ∨ record.email = "" ∨ record.password = "" then
            parseLoop maxRecords count (lineNum + 1) rest
          else
            record :: parseLoop maxRecords (count + 1) (lineNum + 1) rest

/-- `ImportService.parseCSVRecords`: read and validate the header, then
run the row loop starting at line 2. An empty input or a failing first
read is a header read error. -/
def parseCSVRecords (input : List RowRead) (maxRecords : Nat) :
    Except String (List UserImportRecord) :=
  match input with
  | [] => Except.error "failed to read CSV header: EOF"
  | Except.error e :: _ => Except.error ("failed to read CSV header: " ++ e)
  | Except.ok header :: rest =>
    if validateHeader header expectedHeaders then
      Except.ok (parseLoop maxRecords 0 2 rest)
    else
      Except.error "invalid CSV header"

/-- The collector's success counter (`successCount++` per successful
outcome received). -/
def countSuccess : List ImportResult → Nat
  | [] => 0
  | r :: rs => (if r.success then 1 else 0) + countSuccess rs

/-- The collector's failure counter. -/
def countFailure : List ImportResult → Nat
  | [] => 0
  | r :: rs => (if r.success then 0 else 1) + countFailure rs

/-- The summary assembled at source lines 162–168 from the collected
results: `TotalRecords = len(records)`, counters from the collector. -/
def collectSummary (total : Nat) (results : List ImportResult) : ImportSummary :=
  { totalRecords := total
    successCount := countSuccess results
    failureCount := countFailure results
    results := results }

/-- Every return path of `ImportUsersFromCSV`, with the list of outcomes
the collector managed to receive (`collected`) left as a parameter: a
parse error is returned as an error, zero parsed records short-circuit
to the zero summary, and otherwise the function returns the summary
built from `collected` with a nil error — there is no other return. -/
def importReturn (create : Creator) (input : List RowRead) (config : ImportConfig)
    (collected : List ImportResult) : Except String ImportSummary :=
  match parseCSVRecords input config.maxRecords with
  | Except.error e => Except.error ("failed to parse CSV: " ++ e)
  | Except.ok records =>
    if records.isEmpty then
      Except.ok { totalRecords := 0, successCount := 0, failureCount := 0, results := [] }
    else
      Except.ok (collectSummary records.length collected)

/-- A completed (non-cancelled) run of `ImportUsersFromCSV` after a
successful parse: at least one worker runs, every parsed record is
processed by exactly one worker through `processUserRecord`, and the
collector receives all outcomes in some completion order. -/
def WorkerRunResults (create : Creator) (records : List UserImportRecord)
    (workerCount : Nat) (results : List ImportResult) : Prop :=
  1 ≤ workerCount ∧ results.Perm (records.map (processUserRecord create))

/-- Deterministic reference run: a completed run whose completion order
happens to coincide with input order. -/
def importUsersFromCSV (create : Creator) (input : List RowRead)
    (config : ImportConfig) : Except String ImportSummary :=
  importReturn create input config
    (match parseCSVRecords input config.maxRecords with
     | Except.ok records => records.map (processUserRecord create)
     | Except.error _ => [])

/-- Go `encoding/json` marshalling of `UserImportRecord` (no `json`
tags on the struct, so Go field names are used; string escaping is not
modelled — the inputs used here need none). -/
def serializeRecord (r : UserImportRecord) : String :=
  "\x7b\"Username\":\"" ++ r.username ++ "\",\"Email\":\"" ++ r.email ++
    "\",\"Password\":\"" ++ r.password ++ "\",\"Role\":\"" ++ r.role ++
    "\",\"LineNum\":" ++ Nat.repr r.lineNum ++ "\x7d"

/-- Go `encoding/json` marshalling of `ImportResult` following its tags
(`record`, `success`, `error,omitempty`, `user_id,omitempty`). -/
def serializeResult (r : ImportResult) : String :=
  "\x7b\"record\":" ++ serializeRecord r.record ++
    ",\"success\":" ++ (if r.success then "true" else "false") ++
    (if r.error = "" then "" else ",\"error\":\"" ++ r.error ++ "\"") ++
    (if r.userID = "" then "" else ",\"user_id\":\"" ++ r.userID ++ "\"") ++
    "\x7d"

/-- Does `pat` occur at the head of `l`? -/
def leadsWith : List Char → List Char → Bool
  | [], _ => true
  | _ :: _, [] => false
  | a :: pa, b :: l => a = b && leadsWith pa l

/-- Does `pat` occur anywhere inside `l`? -/
def hasSub (pat : List Char) : List Char → Bool
  | [] => leadsWith pat []
  | b :: l => leadsWith pat (b :: l) || hasSub pat l

/-- Substring containment on strings. -/
def strContainsStr (s pat : String) : Bool :=
  hasSub pat.data s.data

end SetaImport

namespace SetaImport

/-! ## Counting lemmas for the collector -/

theorem countSuccess_eq_countP (l : List ImportResult) :
    countSuccess l = l.countP (fun r => r.success) := by
  induction l with
  | nil => rfl
  | cons r rs ih => simp [countSuccess, List.countP_cons, ih]; omega

theorem countFailure_eq_countP (l : List ImportResult) :
    countFailure l = l.countP (fun r => !r.success) := by
  induction l with
  | nil => rfl
  | cons r rs ih =>
    simp [countFailure, List.countP_cons, ih]
    cases r.success <;> simp <;> omega

theorem countSuccess_add_countFailure (l : List ImportResult) :
    countSuccess l + countFailure l = l.length := by
  induction l with
  | nil => rfl
  | cons r rs ih =>
    simp [countSuccess, countFailure]
    cases r.success <;> simp <;> omega

/-! ## C1: counts invariant of a completed run -/

/-- C1: For every run of `ImportUsersFromCSV` that completes without
cancellation (every parsed record processed, all outcomes collected),
the returned summary satisfies
`TotalRecords = SuccessCount + FailureCount = len(Results)`, and
`TotalRecords` equals the number of parsed records. -/
theorem import_summary_counts_invariant (create : Creator) (input : List RowRead)
    (config : ImportConfig) (records : List UserImportRecord) (results : List ImportResult)
    (hparse : parseCSVRecords input config.maxRecords = Except.ok records)
    (hrun : WorkerRunResults create records config.workerCount results) :
    ∃ s, importReturn create input config results = Except.ok s ∧
      s.totalRecords = s.successCount + s.failureCount ∧
      s.totalRecords = s.results.length ∧
      s.totalRecords = records.length := by
  have hlen : results.length = records.length := by
    simpa using hrun.2.length_eq
  have hret : importReturn create input config results =
      if records.isEmpty then
        Except.ok { totalRecords := 0, successCount := 0, failureCount := 0, results := [] }
      else Except.ok (collectSummary records.length results) := by
    unfold importReturn
    rw [hparse]
  rw [hret]
  by_cases hemp : records.isEmpty = true
  · rw [if_pos hemp]
    rw [List.isEmpty_iff] at hemp
    subst hemp
    exact ⟨_, rfl, rfl, rfl, rfl⟩
  · rw [if_neg hemp]
    refine ⟨_, rfl, ?_, ?_, rfl⟩
    · show records.length = countSuccess results + countFailure results
      rw [countSuccess_add_countFailure, hlen]
    · show records.length = results.length
      exact hlen.symm

/-- Concrete instantiation of `import_summary_counts_invariant`: a
two-record input whose outcomes arrive in reversed completion order. -/
theorem import_summary_counts_invariant_witness :
    ∃ s, importReturn (fun _ => Except.ok "uid-1")
        [Except.ok ["username", "email", "password", "role"],
         Except.ok ["a", "a@x.com", "pw", "manager"],
         Except.ok ["b", "b@x.com", "pw", "bad"]]
        { workerCount := 2, batchSize := 10, timeoutMs := 1000, maxRecords := 0, skipDuplicates := true }
        [{ record := { username := "b", email := "b@x.com", password := "pw", role := "bad", lineNum := 3 },
           success := false, error := "invalid role 'bad'. Must be 'manager' or 'member'", userID := "" },
         { record := { username := "a", email := "a@x.com", password := "pw", role := "manager", lineNum := 2 },
           success := true, error := "", userID := "uid-1" }] = Except.ok s ∧
      s.totalRecords = s.successCount + s.failureCount ∧
      s.totalRecords = s.results.length ∧
      s.totalRecords = ([{ username := "a", email := "a@x.com", password := "pw", role := "manager", lineNum := 2 },
        { username := "b", email := "b@x.com", password := "pw", role := "bad", lineNum := 3 }] :
          List UserImportRecord).length :=
  import_summary_counts_invariant _ _ _ _ _ (by decide) ⟨by decide, by decide⟩

end SetaImport

namespace SetaImport

/-! ## C3: unrecognized role fails without calling the creator -/

/-- C3: If the record's role is (case-insensitively) neither
`manager` nor `member`, `processUserRecord` returns a failure outcome
with the exact error text
`invalid role '<value>'. Must be 'manager' or 'member'`, and the result
does not depend on the creator — the creator is not called. -/
theorem invalid_role_fails_without_creator (create create2 : Creator)
    (r : UserImportRecord)
    (h1 : goToLower r.role ≠ "manager") (h2 : goToLower r.role ≠ "member") :
    processUserRecord create r =
      { record := r, success := false,
        error := "invalid role '" ++ r.role ++ "'. Must be 'manager' or 'member'",
        userID := "" } ∧
    processUserRecord create r = processUserRecord create2 r := by
  have hrole : roleOfString r.role = none := by
    unfold roleOfString
    rw [if_neg h1, if_neg h2]
  constructor <;> · unfold processUserRecord; rw [hrole]

/-- Concrete instantiation of `invalid_role_fails_without_creator` at
role value `invalid_role`, with two creators that disagree everywhere. -/
theorem invalid_role_fails_without_creator_witness :
    processUserRecord (fun _ => Except.ok "uid")
      { username := "jane", email := "jane@x.com", password := "pw",
        role := "invalid_role", lineNum := 3 } =
      { record := { username := "jane", email := "jane@x.com", password := "pw",
                    role := "invalid_role", lineNum := 3 },
        success := false,
        error := "invalid role '" ++ "invalid_role" ++ "'. Must be 'manager' or 'member'",
        userID := "" } ∧
    processUserRecord (fun _ => Except.ok "uid")
      { username := "jane", email := "jane@x.com", password := "pw",
        role := "invalid_role", lineNum := 3 } =
    processUserRecord (fun _ => Except.error "email already exists")
      { username := "jane", email := "jane@x.com", password := "pw",
        role := "invalid_role", lineNum := 3 } :=
  invalid_role_fails_without_creator _ _ _ (by decide) (by decide)

/-! ## C4: recognized role invokes the creator; outcome mirrors it -/

/-- C4: On a recognized role, `processUserRecord` calls the creator
on the input built from the record: a creator success yields a
successful outcome carrying the created identifier, and a creator
failure yields a failed outcome whose error string is the creator's
error text verbatim. -/
theorem valid_role_outcome_mirrors_creator (create : Creator)
    (r : UserImportRecord) (role : UserRole)
    (hrole : roleOfString r.role = some role) :
    (∀ uid, create (createInputOf r role) = Except.ok uid →
      processUserRecord create r =
        { record := r, success := true, error := "", userID := uid }) ∧
    (∀ e, create (createInputOf r role) = Except.error e →
      processUserRecord create r =
        { record := r, success := false, error := e, userID := "" }) := by
  constructor
  · intro uid huid
    simp only [processUserRecord, hrole, huid]
  · intro e he
    simp only [processUserRecord, hrole, he]

/-- Concrete instantiation of `valid_role_outcome_mirrors_creator`: a
succeeding creator and a creator failing with `email already exists`. -/
theorem valid_role_outcome_mirrors_creator_witness :
    processUserRecord (fun _ => Except.ok "new-id")
      { username := "john", email := "john@x.com", password := "pw",
        role := "Manager", lineNum := 2 } =
      { record := { username := "john", email := "john@x.com", password := "pw",
                    role := "Manager", lineNum := 2 },
        success := true, error := "", userID := "new-id" } ∧
    processUserRecord (fun _ => Except.error "email already exists")
      { username := "john", email := "john@x.com", password := "pw",
        role := "Manager", lineNum := 2 } =
      { record := { username := "john", email := "john@x.com", password := "pw",
                    role := "Manager", lineNum := 2 },
        success := false, error := "email already exists", userID := "" } :=
  ⟨(valid_role_outcome_mirrors_creator (fun _ => Except.ok "new-id")
      { username := "john", email := "john@x.com", password := "pw",
        role := "Manager", lineNum := 2 } UserRole.manager (by decide)).1 "new-id" rfl,
   (valid_role_outcome_mirrors_creator (fun _ => Except.error "email already exists")
      { username := "john", email := "john@x.com", password := "pw",
        role := "Manager", lineNum := 2 } UserRole.manager (by decide)).2
      "email already exists" rfl⟩

end SetaImport

namespace SetaImport

/-! ## parseLoop lemmas -/

/-- Definitional unfolding of `parseCSVRecords` on a readable header. -/
theorem parseCSVRecords_ok_cons (hdr : List String) (rest : List RowRead) (m : Nat) :
    parseCSVRecords (Except.ok hdr :: rest) m =
      if validateHeader hdr expectedHeaders then Except.ok (parseLoop m 0 2 rest)
      else Except.error "invalid CSV header" := rfl

/-- Once the cap is reached, the row loop accepts nothing further. -/
theorem parseLoop_stop (n c line : Nat) (rows : List RowRead)
    (h0 : 0 < n) (hc : n ≤ c) : parseLoop n c line rows = [] := by
  cases rows with
  | nil => rfl
  | cons r rest =>
    unfold parseLoop
    rw [if_pos ⟨h0, hc⟩]

/-- The row loop accepts at most one record per remaining row. -/
theorem parseLoop_length_le (rows : List RowRead) :
    ∀ n c line, (parseLoop n c line rows).length ≤ rows.length := by
  induction rows with
  | nil => intro n c line; simp [parseLoop]
  | cons r rest ih =>
    intro n c line
    unfold parseLoop
    split
    · simp
    · cases r with
      | error e =>
        exact le_trans (ih n c (line + 1)) (Nat.le_succ _)
      | ok row =>
        dsimp only
        split
        · exact le_trans (ih n c (line + 1)) (Nat.le_succ _)
        · split
          · exact le_trans (ih n c (line + 1)) (Nat.le_succ _)
          · simpa using ih n (c + 1) (line + 1)

/-- With a positive cap, the row loop returns exactly the prefix of the
uncapped loop that fits under the cap. -/
theorem parseLoop_take (rows : List RowRead) :
    ∀ n c line, c < n →
      parseLoop n c line rows = (parseLoop 0 c line rows).take (n - c) := by
  induction rows with
  | nil => intro n c line _; simp [parseLoop]
  | cons r rest ih =>
    intro n c line hcn
    unfold parseLoop
    rw [if_neg (by omega), if_neg (by omega)]
    cases r with
    | error e => exact ih n c (line + 1) hcn
    | ok row =>
      dsimp only
      split
      · exact ih n c (line + 1) hcn
      · split
        · exact ih n c (line + 1) hcn
        · by_cases h3 : c + 1 < n
          · rw [ih n (c + 1) (line + 1) h3]
            have hnc : n - c = (n - (c + 1)) + 1 := by omega
            rw [hnc, List.take_succ_cons]
          · have hnc : n - c = 1 := by omega
            rw [parseLoop_stop n (c + 1) (line + 1) rest (by omega) (by omega), hnc,
              List.take_succ_cons, List.take_zero]

/-! ## C5: the maxRecords cap -/

/-- C5: A parse never yields more records than there are input rows;
and for every `maxRecords > 0` the parse yields at most `maxRecords`
records, and they are exactly the first `maxRecords` records of the
uncapped (`maxRecords = 0`) parse of the same input, in input order. -/
theorem parse_respects_maxRecords (input : List RowRead) (maxRecords : Nat)
    (records : List UserImportRecord)
    (hp : parseCSVRecords input maxRecords = Except.ok records) :
    records.length < input.length ∧
    (0 < maxRecords → records.length ≤ maxRecords ∧
      ∃ all, parseCSVRecords input 0 = Except.ok all ∧ records = all.take maxRecords) := by
  rcases input with _ | ⟨hd, rest⟩
  · exact absurd hp (by simp [parseCSVRecords])
  · rcases hd with e | hdr
    · exact absurd hp (by simp [parseCSVRecords])
    · rw [parseCSVRecords_ok_cons] at hp
      by_cases hv : validateHeader hdr expectedHeaders = true
      · rw [if_pos hv] at hp
        have hrec : records = parseLoop maxRecords 0 2 rest := by
          cases hp; rfl
        constructor
        · rw [hrec]
          have := parseLoop_length_le rest maxRecords 0 2
          simp only [List.length_cons]
          omega
        · intro hpos
          have htake : parseLoop maxRecords 0 2 rest =
              (parseLoop 0 0 2 rest).take maxRecords := by
            simpa using parseLoop_take rest maxRecords 0 2 hpos
          refine ⟨?_, parseLoop 0 0 2 rest, ?_, ?_⟩
          · rw [hrec, htake]
            exact List.length_take_le _ _
          · rw [parseCSVRecords_ok_cons, if_pos hv]
          · rw [hrec, htake]
      · rw [if_neg hv] at hp
        cases hp

/-- Concrete instantiation of `parse_respects_maxRecords`:
`maxRecords = 2` against three well-formed rows keeps the first two. -/
theorem parse_respects_maxRecords_witness :
    ([{ username := "a", email := "b", password := "c", role := "manager", lineNum := 2 },
      { username := "d", email := "e", password := "f", role := "member", lineNum := 3 }] :
        List UserImportRecord).length <
      ([Except.ok ["username", "email", "password", "role"],
        Except.ok ["a", "b", "c", "manager"],
        Except.ok ["d", "e", "f", "member"],
        Except.ok ["g", "h", "i", "member"]] : List RowRead).length ∧
    (0 < 2 → ([{ username := "a", email := "b", password := "c", role := "manager", lineNum := 2 },
      { username := "d", email := "e", password := "f", role := "member", lineNum := 3 }] :
        List UserImportRecord).length ≤ 2 ∧
      ∃ all, parseCSVRecords
          [Except.ok ["username", "email", "password", "role"],
           Except.ok ["a", "b", "c", "manager"],
           Except.ok ["d", "e", "f", "member"],
           Except.ok ["g", "h", "i", "member"]] 0 = Except.ok all ∧
        [{ username := "a", email := "b", password := "c", role := "manager", lineNum := 2 },
         { username := "d", email := "e", password := "f", role := "member", lineNum := 3 }] =
          all.take 2) :=
  parse_respects_maxRecords _ 2 _ (by decide)

/-! ## C6: which empty fields cause a row to be skipped -/

/-- C6 counterexample: A data row whose `role` (category) field is
empty after trimming is *not* skipped: the parser still produces a
record for it (with `role = ""`). Only `username`, `email` and
`password` are checked for emptiness. -/
theorem empty_role_row_not_skipped :
    parseCSVRecords
        [Except.ok ["username", "email", "password", "role"],
         Except.ok ["u", "e", "p", ""]] 0 =
      Except.ok [{ username := "u", email := "e", password := "p",
                   role := "", lineNum := 2 }] := by
  decide

/-- C6 amended: For every data row in which `username`, `email` or
`password` is empty after whitespace trimming (the `role`/category field
is not checked), the parser skips that row — it produces no record for
it — while still advancing the line counter. -/
theorem row_with_empty_required_field_skipped (maxRecords count line : Nat)
    (row : List String) (rest : List RowRead)
    (hlen : 4 ≤ row.length)
    (hempty : goTrimSpace (row.getD 0 "") = "" ∨ goTrimSpace (row.getD 1 "") = "" ∨
      goTrimSpace (row.getD 2 "") = "") :
    parseLoop maxRecords count line (Except.ok row :: rest) =
      parseLoop maxRecords count (line + 1) rest := by
  by_cases hcap : 0 < maxRecords ∧ maxRecords ≤ count
  · rw [parseLoop_stop maxRecords count (line + 1) rest hcap.1 hcap.2]
    unfold parseLoop
    rw [if_pos hcap]
  · conv_lhs => rw [parseLoop.eq_def]
    dsimp only
    rw [if_neg hcap, if_neg (by omega : ¬ row.length < 4), if_pos hempty]

/-- Concrete instantiation of `row_with_empty_required_field_skipped`:
a row with a blank username is skipped and the next row still gets its
own (advanced) line number. -/
theorem row_with_empty_required_field_skipped_witness :
    parseLoop 0 0 2
        [Except.ok ["   ", "e@x.com", "pw", "member"],
         Except.ok ["a", "b", "c", "member"]] =
      parseLoop 0 0 3 [Except.ok ["a", "b", "c", "member"]] :=
  row_with_empty_required_field_skipped 0 0 2 _ _ (by decide) (by decide)

end SetaImport

namespace SetaImport

/-! ## Header validation characterisation -/

/-- `headerMatches` succeeds exactly when trimming and lowercasing the
first `expected.length` header columns yields `expected`. -/
theorem headerMatches_eq_true_iff (e : List String) : ∀ hd : List String,
    headerMatches hd e = true ↔
      (hd.take e.length).map (fun c => goToLower (goTrimSpace c)) = e := by
  induction e with
  | nil => intro hd; simp [headerMatches]
  | cons x xs ih =>
    intro hd
    cases hd with
    | nil => simp [headerMatches]
    | cons y ys =>
      simp [headerMatches, ih ys]

/-- `validateHeader` against the expected columns succeeds exactly when
the header has at least four columns and its first four, trimmed and
lowercased, are `username`, `email`, `password`, `role` in order. -/
theorem validateHeader_expected_iff (hdr : List String) :
    validateHeader hdr expectedHeaders = true ↔
      (4 ≤ hdr.length ∧
        (hdr.take 4).map (fun c => goToLower (goTrimSpace c)) = expectedHeaders) := by
  unfold validateHeader
  have hlen4 : expectedHeaders.length = 4 := rfl
  by_cases hl : hdr.length < expectedHeaders.length
  · rw [if_pos hl]
    rw [hlen4] at hl
    constructor
    · intro h; cases h
    · rintro ⟨h4, _⟩; omega
  · rw [if_neg hl, headerMatches_eq_true_iff, hlen4]
    rw [hlen4] at hl
    exact ⟨fun h => ⟨by omega, h⟩, fun h => h.2⟩

/-! ## C2: run errors exactly on unreadable or invalid headers -/

/-- C2: `ImportUsersFromCSV` returns an error (whatever outcomes the
collector saw) if and only if the header line cannot be read (empty
input or first read failing) or the trimmed, lowercased first four
header columns are not exactly `username, email, password, role` in
that order (extra trailing columns tolerated); row-level problems never
produce an error. -/
theorem import_error_iff_header_invalid (create : Creator) (config : ImportConfig)
    (input : List RowRead) (collected : List ImportResult) :
    (∃ e, importReturn create input config collected = Except.error e) ↔
      (input = [] ∨ (∃ e rest, input = Except.error e :: rest) ∨
       ∃ hdr rest, input = Except.ok hdr :: rest ∧
         ¬(4 ≤ hdr.length ∧
           (hdr.take 4).map (fun c => goToLower (goTrimSpace c)) = expectedHeaders)) := by
  rcases input with _ | ⟨hd, rest⟩
  · exact ⟨fun _ => Or.inl rfl,
      fun _ => ⟨"failed to parse CSV: " ++ "failed to read CSV header: EOF", rfl⟩⟩
  · rcases hd with e | hdr
    · exact ⟨fun _ => Or.inr (Or.inl ⟨e, rest, rfl⟩),
        fun _ => ⟨"failed to parse CSV: " ++ ("failed to read CSV header: " ++ e), rfl⟩⟩
    · have hret : importReturn create (Except.ok hdr :: rest) config collected =
          (if validateHeader hdr expectedHeaders then
            (if (parseLoop config.maxRecords 0 2 rest).isEmpty then
              Except.ok { totalRecords := 0, successCount := 0, failureCount := 0, results := [] }
             else Except.ok (collectSummary (parseLoop config.maxRecords 0 2 rest).length collected))
          else Except.error ("failed to parse CSV: " ++ "invalid CSV header")) := by
        unfold importReturn
        rw [parseCSVRecords_ok_cons]
        by_cases hv : validateHeader hdr expectedHeaders = true
        · rw [if_pos hv, if_pos hv]
        · rw [if_neg hv, if_neg hv]
      by_cases hv : validateHeader hdr expectedHeaders = true
      · rw [hret, if_pos hv]
        constructor
        · rintro ⟨e', he'⟩
          by_cases hemp : (parseLoop config.maxRecords 0 2 rest).isEmpty = true
          · rw [if_pos hemp] at he'; cases he'
          · rw [if_neg hemp] at he'; cases he'
        · rintro (h | ⟨e', r', h⟩ | ⟨hdr', rest', heq, hnot⟩)
          · cases h
          · cases List.cons.inj h |>.1
          · obtain ⟨h1, -⟩ := List.cons.inj heq
            cases h1
            exact absurd ((validateHeader_expected_iff hdr).mp hv) hnot
      · rw [hret, if_neg hv]
        refine ⟨fun _ => Or.inr (Or.inr ⟨hdr, rest, rfl, ?_⟩), fun _ => ⟨_, rfl⟩⟩
        exact fun hspec => hv ((validateHeader_expected_iff hdr).mpr hspec)

end SetaImport

namespace SetaImport

/-! ## C7: what a truncated (cancelled) run actually returns -/

/-- C7 code evidence: When cancellation truncates processing —
here: a one-record parse while no worker completed, so the collector
received nothing — `ImportUsersFromCSV` still returns a summary with a
nil error (`TotalRecords = 1`, empty `Results`); no timeout or
cancellation error is surfaced on any return path modelled by
`importReturn`. -/
theorem truncated_run_returns_nil_error :
    importReturn (fun _ => Except.ok "uid")
        [Except.ok ["username", "email", "password", "role"],
         Except.ok ["u", "u@x.com", "pw", "member"]]
        { workerCount := 5, batchSize := 100, timeoutMs := 0,
          maxRecords := 1000, skipDuplicates := true }
        [] =
      Except.ok { totalRecords := 1, successCount := 0, failureCount := 0,
                  results := [] } := by
  decide

/-! ## C8: the password is echoed back in outcomes -/

/-- C8 code evidence: The outcome of a successfully imported
record carries the full original record, password included: for the
concrete row `john.doe,john.doe@example.com,password123,manager`, the
run's single outcome has `Record.Password = "password123"` and its JSON
serialization contains the password value. -/
theorem outcome_echoes_password :
    importUsersFromCSV (fun _ => Except.ok "uid-1")
        [Except.ok ["username", "email", "password", "role"],
         Except.ok ["john.doe", "john.doe@example.com", "password123", "manager"]]
        { workerCount := 5, batchSize := 100, timeoutMs := 30000,
          maxRecords := 1000, skipDuplicates := true } =
      Except.ok { totalRecords := 1, successCount := 1, failureCount := 0,
                  results := [{ record := { username := "john.doe",
                                            email := "john.doe@example.com",
                                            password := "password123",
                                            role := "manager", lineNum := 2 },
                                success := true, error := "", userID := "uid-1" }] } ∧
    ({ record := { username := "john.doe", email := "john.doe@example.com",
                   password := "password123", role := "manager", lineNum := 2 },
       success := true, error := "", userID := "uid-1" } : ImportResult).record.password =
      "password123" ∧
    strContainsStr
      (serializeResult
        { record := { username := "john.doe", email := "john.doe@example.com",
                      password := "password123", role := "manager", lineNum := 2 },
          success := true, error := "", userID := "uid-1" })
      "password123" = true := by
  refine ⟨by decide, rfl, by decide⟩

/-! ## C9: worker-count independence of a completed run -/

/-- C9: Two completed (non-cancelled) runs of the worker pool over
the same parsed records with the same creator — with any worker counts
`w1, w2 ≥ 1` — produce identical success and failure counts and
identical outcome multisets (order may differ). -/
theorem worker_count_independent (create : Creator) (records : List UserImportRecord)
    (w1 w2 : Nat) (res1 res2 : List ImportResult)
    (h1 : WorkerRunResults create records w1 res1)
    (h2 : WorkerRunResults create records w2 res2) :
    (collectSummary records.length res1).successCount =
      (collectSummary records.length res2).successCount ∧
    (collectSummary records.length res1).failureCount =
      (collectSummary records.length res2).failureCount ∧
    (↑res1 : Multiset ImportResult) = (↑res2 : Multiset ImportResult) := by
  have hperm : res1.Perm res2 := h1.2.trans h2.2.symm
  refine ⟨?_, ?_, Multiset.coe_eq_coe.mpr hperm⟩
  · show countSuccess res1 = countSuccess res2
    rw [countSuccess_eq_countP, countSuccess_eq_countP]
    exact hperm.countP_eq _
  · show countFailure res1 = countFailure res2
    rw [countFailure_eq_countP, countFailure_eq_countP]
    exact hperm.countP_eq _

/-- Concrete instantiation of `worker_count_independent`: worker counts
1 and 10 over the same two records, outcomes collected in opposite
orders. -/
theorem worker_count_independent_witness :
    (collectSummary 2
        [{ record := { username := "a", email := "a@x.com", password := "pw",
                       role := "manager", lineNum := 2 },
           success := true, error := "", userID := "uid" },
         { record := { username := "b", email := "b@x.com", password := "pw",
                       role := "bad", lineNum := 3 },
           success := false,
           error := "invalid role 'bad'. Must be 'manager' or 'member'", userID := "" }]).successCount =
      (collectSummary 2
        [{ record := { username := "b", email := "b@x.com", password := "pw",
                       role := "bad", lineNum := 3 },
           success := false,
           error := "invalid role 'bad'. Must be 'manager' or 'member'", userID := "" },
         { record := { username := "a", email := "a@x.com", password := "pw",
                       role := "manager", lineNum := 2 },
           success := true, error := "", userID := "uid" }]).successCount ∧
    (collectSummary 2
        [{ record := { username := "a", email := "a@x.com", password := "pw",
                       role := "manager", lineNum := 2 },
           success := true, error := "", userID := "uid" },
         { record := { username := "b", email := "b@x.com", password := "pw",
                       role := "bad", lineNum := 3 },
           success := false,
           error := "invalid role 'bad'. Must be 'manager' or 'member'", userID := "" }]).failureCount =
      (collectSummary 2
        [{ record := { username := "b", email := "b@x.com", password := "pw",
                       role := "bad", lineNum := 3 },
           success := false,
           error := "invalid role 'bad'. Must be 'manager' or 'member'", userID := "" },
         { record := { username := "a", email := "a@x.com", password := "pw",
                       role := "manager", lineNum := 2 },
           success := true, error := "", userID := "uid" }]).failureCount ∧
    (↑[({ record := { username := "a", email := "a@x.com", password := "pw",
                      role := "manager", lineNum := 2 },
          success := true, error := "", userID := "uid" } : ImportResult),
        { record := { username := "b", email := "b@x.com", password := "pw",
                      role := "bad", lineNum := 3 },
          success := false,
          error := "invalid role 'bad'. Must be 'manager' or 'member'", userID := "" }] :
        Multiset ImportResult) =
      ↑[({ record := { username := "b", email := "b@x.com", password := "pw",
                       role := "bad", lineNum := 3 },
           success := false,
           error := "invalid role 'bad'. Must be 'manager' or 'member'", userID := "" } : ImportResult),
         { record := { username := "a", email := "a@x.com", password := "pw",
                       role := "manager", lineNum := 2 },
           success := true, error := "", userID := "uid" }] :=
  worker_count_independent (fun _ => Except.ok "uid")
    [{ username := "a", email := "a@x.com", password := "pw", role := "manager", lineNum := 2 },
     { username := "b", email := "b@x.com", password := "pw", role := "bad", lineNum := 3 }]
    1 10 _ _ ⟨by decide, by decide⟩ ⟨by decide, by decide⟩

/-! ## C10: SkipDuplicates is never read -/

/-- C10: The result of `ImportUsersFromCSV` is independent of
`config.SkipDuplicates`: flipping only that flag changes neither the
value returned for any collection of outcomes (`importReturn`) nor the
deterministic full run (`importUsersFromCSV`). -/
theorem skipDuplicates_never_read (create : Creator) (input : List RowRead)
    (config : ImportConfig) (b : Bool) (collected : List ImportResult) :
    importReturn create input { config with skipDuplicates := b } collected =
      importReturn create input config collected ∧
    importUsersFromCSV create input { config with skipDuplicates := b } =
      importUsersFromCSV create input config :=
  ⟨rfl, rfl⟩

end SetaImport
